import Mathlib

/-!
Verification development for the fastapi-async-crud repository.

The repository contains two parallel implementations of an Item CRUD service:

* the flat layer: endpoints in app/main.py over data-access functions in
  app/crud.py, with the validator-free pydantic models of app/schemas.py and
  the ORM model of app/models.py;
* the packaged layer: the router in app/api/endpoints/items.py over
  app/crud/item.py, with the validating pydantic models of app/schemas/item.py
  and the ORM model of app/db/models.py.

Both layers store Item rows (integer primary key id, string name, string
description) in a single SQLite table through Tortoise ORM.  The embedding
below models the table as a list of rows in insertion (rowid) order together
with the next auto-assigned primary key, and each data-access or endpoint
function as a pure state-passing function on that store.  Python exceptions
are modelled explicitly (ValueError, AttributeError, the wrapped ItemError,
and HTTP error responses).
-/

namespace FastapiCrud

/-- An Item row of the items table (app/db/models.py and app/models.py):
integer primary key id, name (CharField, max_length 255, which SQLite does not
enforce), description (TextField). -/
structure Item where
  id : Nat
  name : String
  description : String
deriving Repr, DecidableEq

/-- The database state: the rows of the items table in insertion (rowid)
order, together with the next primary key the store will assign. -/
structure Store where
  items : List Item
  nextId : Nat
deriving Repr, DecidableEq

/-- Well-formedness of the store, as guaranteed by the SQLite integer primary
key: every stored id is below the next id to be assigned, and ids are
pairwise distinct. -/
def Store.WF (s : Store) : Prop :=
  (∀ it ∈ s.items, it.id < s.nextId) ∧ (s.items.map Item.id).Nodup

instance (s : Store) : Decidable s.WF := by
  unfold Store.WF
  infer_instance

deriving instance DecidableEq for Except

/-- Tortoise Item.create(name=..., description=...): inserts a row with the
next primary key and returns it. -/
def dbCreate (s : Store) (name description : String) : Item × Store :=
  let it : Item := ⟨s.nextId, name, description⟩
  (it, ⟨s.items ++ [it], s.nextId + 1⟩)

/-- Tortoise Item.all(): every row, in rowid order. -/
def dbAll (s : Store) : List Item :=
  s.items

/-- Tortoise Item.get_or_none(id=item_id): the row with the given primary key,
or None. -/
def dbGetOrNone (s : Store) (item_id : Nat) : Option Item :=
  s.items.find? (fun it => it.id == item_id)

/-- item.save() on an object loaded from the table: overwrites the row whose
primary key equals that of the object. -/
def dbSave (s : Store) (it : Item) : Store :=
  ⟨s.items.map (fun x => if x.id = it.id then it else x), s.nextId⟩

/-- item.delete(): removes the row with the primary key of the object. -/
def dbDelete (s : Store) (item_id : Nat) : Store :=
  ⟨s.items.filter (fun x => x.id != item_id), s.nextId⟩

/-- Python str.strip() with no argument: the string with leading and trailing
whitespace characters removed. -/
def pyStrip (s : String) : String :=
  String.mk ((s.data.dropWhile Char.isWhitespace).reverse.dropWhile Char.isWhitespace).reverse

namespace crud

/-- app/crud.py create_item: calls Item.create with the given fields, with no
validation of any kind. -/
def create_item (s : Store) (name description : String) : Item × Store :=
  dbCreate s name description

/-- app/crud.py get_items: Item.all(), no pagination parameters.  A read-only
query, so the store component of the result is the unchanged store. -/
def get_items (s : Store) : List Item × Store :=
  (dbAll s, s)

/-- app/crud.py get_item_by_id: Item.get_or_none(id=item_id), a read-only
query. -/
def get_item_by_id (s : Store) (item_id : Nat) : Option Item × Store :=
  (dbGetOrNone s item_id, s)

/-- app/crud.py update_item(item_id, name, description): both field arguments
are required by the Python signature (no defaults); if the item exists both
fields are assigned and saved, otherwise None is returned. -/
def update_item (s : Store) (item_id : Nat) (name description : String) :
    Option Item × Store :=
  match dbGetOrNone s item_id with
  | some it =>
      let it2 : Item := ⟨it.id, name, description⟩
      (some it2, dbSave s it2)
  | none => (none, s)

/-- app/crud.py delete_item: deletes the row if present, returning whether it
was found. -/
def delete_item (s : Store) (item_id : Nat) : Bool × Store :=
  match dbGetOrNone s item_id with
  | some _ => (true, dbDelete s item_id)
  | none => (false, s)

end crud

/-- Outcome of calling an HTTP endpoint of the service. -/
inductive HttpResult (α : Type) where
  | ok : α → HttpResult α
  | httpError : Nat → HttpResult α
  | pyError : String → HttpResult α
deriving Repr, DecidableEq

/-- The body of a flat-app PUT request after ItemUpdate.model_dump with
exclude_unset (app/main.py line 47; app/schemas.py ItemUpdate has no
validators): for each field, none when the field was omitted from the request
body and some v when it was supplied with string value v.  A field supplied
as an explicit JSON null would be forwarded as None and fail at the NOT NULL
database column; only string-valued fields are modelled. -/
structure ItemUpdateDump where
  name : Option String
  description : Option String
deriving Repr, DecidableEq

namespace main

/-- app/main.py create_item_endpoint: the flat ItemCreate schema has no
validators, so any pair of strings reaches crud.create_item, which never
fails; the except-branch (400) is unreachable in this model. -/
def create_item_endpoint (s : Store) (name description : String) :
    HttpResult Item × Store :=
  let (it, s2) := crud.create_item s name description
  (HttpResult.ok it, s2)

/-- app/main.py read_items: returns every item; the flat GET /items takes no
pagination parameters. -/
def read_items (s : Store) : HttpResult (List Item) × Store :=
  (HttpResult.ok (crud.get_items s).1, s)

/-- app/main.py read_item: 404 when get_item_by_id returns None. -/
def read_item (s : Store) (id : Nat) : HttpResult Item × Store :=
  match crud.get_item_by_id s id with
  | (some it, _) => (HttpResult.ok it, s)
  | (none, _) => (HttpResult.httpError 404, s)

/-- app/main.py update_item_endpoint: 404 when the item does not exist;
otherwise it calls crud.update_item(id, **updated_data) where updated_data
holds exactly the fields present in the body.  crud.update_item requires both
the name and the description argument, so a body omitting either field makes
the call itself raise TypeError (missing required positional argument), which
no handler catches: FastAPI turns it into a 500 response and the store is
untouched. -/
def update_item_endpoint (s : Store) (id : Nat) (dump : ItemUpdateDump) :
    HttpResult Item × Store :=
  match crud.get_item_by_id s id with
  | (none, _) => (HttpResult.httpError 404, s)
  | (some _, _) =>
      match dump.name, dump.description with
      | some n, some d =>
          match crud.update_item s id n d with
          | (some it, s2) => (HttpResult.ok it, s2)
          | (none, s2) => (HttpResult.pyError "ResponseValidationError", s2)
      | _, _ =>
          (HttpResult.pyError "TypeError: update_item missing required positional argument", s)

/-- app/main.py delete_item_endpoint: 404 when the item does not exist,
otherwise crud.delete_item runs and a confirmation message is returned. -/
def delete_item_endpoint (s : Store) (id : Nat) : HttpResult String × Store :=
  match crud.get_item_by_id s id with
  | (none, _) => (HttpResult.httpError 404, s)
  | (some _, _) =>
      let (_, s2) := crud.delete_item s id
      (HttpResult.ok "Item deleted successfully", s2)

end main

/-- A Python value passed as a keyword argument to the packaged update_item
(app/crud/item.py): None, a string, or some other non-None non-string object
(the router passes a whole pydantic model this way). -/
inductive PyVal where
  | pyNone : PyVal
  | pyStr : String → PyVal
  | pyObj : PyVal
deriving Repr, DecidableEq

/-- A Python exception escaping a packaged CRUD function: a raised ValueError,
an uncaught AttributeError, or the ItemError the except-blocks wrap unexpected
failures into. -/
inductive CrudError where
  | valueError : String → CrudError
  | attributeError : String → CrudError
  | itemError : String → CrudError
deriving Repr, DecidableEq

namespace crud_item

/-- app/crud/item.py create_item: rejects an empty name or description with
ValueError before touching the database (Python "if not name" on a string is
the empty-string test), then calls Item.create. -/
def create_item (s : Store) (name description : String) :
    Except CrudError Item × Store :=
  if name = "" then
    (Except.error (CrudError.valueError "Name cannot be empty."), s)
  else if description = "" then
    (Except.error (CrudError.valueError "Description cannot be empty."), s)
  else
    let (it, s2) := dbCreate s name description
    (Except.ok it, s2)

/-- app/crud/item.py get_items(limit, offset): Item.all().offset(offset)
.limit(limit), i.e. skip offset rows then return at most limit rows, in rowid
order.  A read-only query; the router constrains limit to be at least 1 and
offset at least 0, so natural-number arguments model every reachable call. -/
def get_items (s : Store) (limit offset : Nat) : List Item × Store :=
  (((dbAll s).drop offset).take limit, s)

/-- app/crud/item.py get_item_by_id: Item.get_or_none(id=item_id), a
read-only query. -/
def get_item_by_id (s : Store) (item_id : Nat) : Option Item × Store :=
  (dbGetOrNone s item_id, s)

/-- First value bound to the given keyword in the updates dict; Python
keyword-argument dicts have pairwise-distinct keys, so when the key list is
Nodup this is the unique binding. -/
def lookupUpd (updates : List (String × PyVal)) (k : String) : Option PyVal :=
  (updates.find? (fun p => p.1 == k)).map Prod.snd

/-- The check "field in updates and not updates[field].strip()" of
app/crud/item.py lines 93-96.  On a string value it raises ValueError when the
stripped string is empty; on None (or any object without a strip method) the
attribute access itself raises AttributeError, which nothing catches. -/
def checkEmptyField (updates : List (String × PyVal)) (field msg : String) :
    Option CrudError :=
  match lookupUpd updates field with
  | none => none
  | some PyVal.pyNone =>
      some (CrudError.attributeError "NoneType object has no attribute strip")
  | some PyVal.pyObj =>
      some (CrudError.attributeError "object has no attribute strip")
  | some (PyVal.pyStr v) =>
      if pyStrip v = "" then some (CrudError.valueError msg) else none

/-- The loop of app/crud/item.py lines 100-102 followed by item.save(): for
each binding in order, a None value is skipped, a string value bound to the
name or description column updates that column, and a string bound to any
other key only sets a transient attribute on the ORM object that save() does
not persist.  Binding a non-string object to a column would make save() fail,
which the surrounding try wraps into ItemError; bound to a non-column key it
is likewise only a transient attribute. -/
def applyUpdates : Item → List (String × PyVal) → Except CrudError Item
  | it, [] => Except.ok it
  | it, (_, PyVal.pyNone) :: rest => applyUpdates it rest
  | it, (field, PyVal.pyStr v) :: rest =>
      if field = "name" then applyUpdates ⟨it.id, v, it.description⟩ rest
      else if field = "description" then applyUpdates ⟨it.id, it.name, v⟩ rest
      else applyUpdates it rest
  | it, (field, PyVal.pyObj) :: rest =>
      if field = "name" ∨ field = "description" then
        Except.error (CrudError.itemError "Failed to update item")
      else applyUpdates it rest

/-- app/crud/item.py update_item(item_id, **updates): returns ok None when the
item does not exist; otherwise checks the supplied name and description for
emptiness (raising before any mutation), then applies the update loop and
saves.  Every error path leaves the table untouched. -/
def update_item (s : Store) (item_id : Nat) (updates : List (String × PyVal)) :
    Except CrudError (Option Item) × Store :=
  match dbGetOrNone s item_id with
  | none => (Except.ok none, s)
  | some it =>
      match checkEmptyField updates "name" "Name cannot be empty." with
      | some e => (Except.error e, s)
      | none =>
          match checkEmptyField updates "description" "Description cannot be empty." with
          | some e => (Except.error e, s)
          | none =>
              match applyUpdates it updates with
              | Except.error e => (Except.error e, s)
              | Except.ok it2 => (Except.ok (some it2), dbSave s it2)

/-- app/crud/item.py delete_item: deletes the row if present, returning
whether it was found. -/
def delete_item (s : Store) (item_id : Nat) : Bool × Store :=
  match dbGetOrNone s item_id with
  | some _ => (true, dbDelete s item_id)
  | none => (false, s)

end crud_item

/-- Modelled from the spec: app/utils/constants.py is imported by
app/schemas/item.py but is not in the repository snapshot.  The spec fixes the
minimum lengths at 1 (name and description are non-empty, min 1), and the
tests of the repository pin the maxima (a 101-character name and a 501-character
description are rejected as exceeding the bounds). -/
def MIN_NAME_LENGTH : Nat := 1

/-- Modelled from the spec: maximum name length, pinned to 100 by the tests. -/
def MAX_NAME_LENGTH : Nat := 100

/-- Modelled from the spec: minimum description length, 1 as for the name. -/
def MIN_DESCRIPTION_LENGTH : Nat := 1

/-- Modelled from the spec: maximum description length, pinned to 500 by the
tests. -/
def MAX_DESCRIPTION_LENGTH : Nat := 500

namespace ItemCreate

/-- app/schemas/item.py ItemCreate.validate_name: plain length bounds, no
stripping for the name on creation. -/
def validate_name (value : String) : Except String String :=
  if value.length < MIN_NAME_LENGTH then
    Except.error ("Name must be at least " ++ toString MIN_NAME_LENGTH ++ " character(s)")
  else if value.length > MAX_NAME_LENGTH then
    Except.error ("Name must not exceed " ++ toString MAX_NAME_LENGTH ++ " character(s)")
  else Except.ok value

/-- app/schemas/item.py ItemCreate.validate_description: the minimum is
checked on the stripped string, the maximum on the raw string. -/
def validate_description (value : String) : Except String String :=
  if (pyStrip value).length < MIN_DESCRIPTION_LENGTH then
    Except.error ("Description must be at least " ++ toString MIN_DESCRIPTION_LENGTH ++ " character(s)")
  else if value.length > MAX_DESCRIPTION_LENGTH then
    Except.error ("Description must not exceed " ++ toString MAX_DESCRIPTION_LENGTH ++ " character(s)")
  else Except.ok value

/-- Validation of a whole ItemCreate body; pydantic runs both field
validators and reports every failure in one 422, modelled here as the first
message of the first failing validator. -/
def validate (name description : String) : Except String (String × String) :=
  match validate_name name with
  | Except.error e => Except.error e
  | Except.ok n =>
      match validate_description description with
      | Except.error e => Except.error e
      | Except.ok d => Except.ok (n, d)

end ItemCreate

namespace ItemUpdate

/-- app/schemas/item.py ItemUpdate.validate_name: an omitted field passes; a
supplied name is checked with the minimum on the stripped string and the
maximum on the raw string. -/
def validate_name : Option String → Except String (Option String)
  | none => Except.ok none
  | some v =>
      if (pyStrip v).length < MIN_NAME_LENGTH then
        Except.error ("Name must be at least " ++ toString MIN_NAME_LENGTH ++ " character(s)")
      else if v.length > MAX_NAME_LENGTH then
        Except.error ("Name must not exceed " ++ toString MAX_NAME_LENGTH ++ " character(s)")
      else Except.ok (some v)

/-- app/schemas/item.py ItemUpdate.validate_description: as for the name. -/
def validate_description : Option String → Except String (Option String)
  | none => Except.ok none
  | some v =>
      if (pyStrip v).length < MIN_DESCRIPTION_LENGTH then
        Except.error ("Description must be at least " ++ toString MIN_DESCRIPTION_LENGTH ++ " character(s)")
      else if v.length > MAX_DESCRIPTION_LENGTH then
        Except.error ("Description must not exceed " ++ toString MAX_DESCRIPTION_LENGTH ++ " character(s)")
      else Except.ok (some v)

end ItemUpdate

namespace api_items

/-- app/api/endpoints/items.py create_item_endpoint: FastAPI first validates
the body against the ItemCreate schema, and a failure is a 422 response
produced before the endpoint body runs.  The body then calls create_item(item)
with the whole pydantic model as the name positional argument and no
description argument at all; that call raises TypeError (missing required
positional argument), which the except-block converts into a 400 response, so
no reachable input of this endpoint ever stores an item. -/
def create_item_endpoint (s : Store) (name description : String) :
    HttpResult Item × Store :=
  match ItemCreate.validate name description with
  | Except.error _ => (HttpResult.httpError 422, s)
  | Except.ok _ => (HttpResult.httpError 400, s)

/-- app/api/endpoints/items.py read_item_endpoint: 404 when get_item_by_id
returns None. -/
def read_item_endpoint (s : Store) (id : Nat) : HttpResult Item × Store :=
  match crud_item.get_item_by_id s id with
  | (some it, _) => (HttpResult.ok it, s)
  | (none, _) => (HttpResult.httpError 404, s)

/-- app/api/endpoints/items.py update_item_endpoint: the body is validated by
the ItemUpdate schema (422 on failure), a missing item is a 404, and then the
endpoint calls update_item(id, item_data=item_update) - binding the whole
pydantic model to the single keyword item_data instead of spreading the
supplied fields.  Inside update_item nothing is therefore recognised as a name
or description update, so the saved row is unchanged and the pre-update item
is returned; the validated field values never reach the database. -/
def update_item_endpoint (s : Store) (id : Nat)
    (upd_name upd_description : Option String) : HttpResult Item × Store :=
  match ItemUpdate.validate_name upd_name with
  | Except.error _ => (HttpResult.httpError 422, s)
  | Except.ok _ =>
      match ItemUpdate.validate_description upd_description with
      | Except.error _ => (HttpResult.httpError 422, s)
      | Except.ok _ =>
          match crud_item.get_item_by_id s id with
          | (none, _) => (HttpResult.httpError 404, s)
          | (some _, _) =>
              match crud_item.update_item s id [("item_data", PyVal.pyObj)] with
              | (Except.ok (some it), s2) => (HttpResult.ok it, s2)
              | (Except.ok none, s2) => (HttpResult.httpError 500, s2)
              | (Except.error _, s2) => (HttpResult.httpError 500, s2)

/-- app/api/endpoints/items.py delete_item_endpoint: 404 when the item does
not exist, otherwise delete_item runs and a confirmation message is
returned. -/
def delete_item_endpoint (s : Store) (id : Nat) : HttpResult String × Store :=
  match crud_item.get_item_by_id s id with
  | (none, _) => (HttpResult.httpError 404, s)
  | (some _, _) =>
      let (_, s2) := crud_item.delete_item s id
      (HttpResult.ok "Item deleted successfully", s2)

end api_items

/-- A mutating operation of the packaged CRUD layer (app/crud/item.py), for
stating store invariants over arbitrary operation sequences. -/
inductive CrudOp where
  | createOp (name description : String) : CrudOp
  | updateOp (id : Nat) (updates : List (String × PyVal)) : CrudOp
  | deleteOp (id : Nat) : CrudOp
deriving Repr, DecidableEq

/-- Store reached after one packaged-CRUD operation (results discarded). -/
def runOp (s : Store) : CrudOp → Store
  | CrudOp.createOp n d => (crud_item.create_item s n d).2
  | CrudOp.updateOp i u => (crud_item.update_item s i u).2
  | CrudOp.deleteOp i => (crud_item.delete_item s i).2

/-- Store reached after a sequence of packaged-CRUD operations. -/
def runOps (s : Store) (ops : List CrudOp) : Store :=
  ops.foldl runOp s

/-- A CrudOp whose keyword arguments could come from an actual Python call:
dict keys are pairwise distinct. -/
def CrudOp.kwargsWF : CrudOp → Prop
  | CrudOp.updateOp _ u => (u.map Prod.fst).Nodup
  | _ => True

/-- Every persisted item has a non-empty name and a non-empty description. -/
def Store.fieldsNonempty (s : Store) : Prop :=
  ∀ it ∈ s.items, it.name ≠ "" ∧ it.description ≠ ""

instance (s : Store) : Decidable s.fieldsNonempty := by
  unfold Store.fieldsNonempty
  infer_instance

instance : DecidablePred CrudOp.kwargsWF := by
  intro op
  cases op <;> (unfold CrudOp.kwargsWF; infer_instance)

/-- A sample stored item used by concrete evaluations. -/
def oldItem : Item :=
  ⟨1, "Old Name", "Old Description"⟩

/-- A store holding exactly the sample item, next primary key 2. -/
def storeOne : Store :=
  ⟨[oldItem], 2⟩

/-- A 101-character name, one character beyond the configured maximum. -/
def longName : String :=
  String.mk (List.replicate 101 'a')

/-- A well-formed store with twenty items, for the pagination witness. -/
def store20 : Store :=
  ⟨(List.range 20).map (fun i => ⟨i + 1, "n", "d"⟩), 21⟩

/-- A sample sequence of packaged-CRUD operations for the invariant witness. -/
def sampleOps : List CrudOp :=
  [CrudOp.createOp "A" "B",
    CrudOp.updateOp 1 [("name", PyVal.pyStr "C")],
    CrudOp.deleteOp 7]

/-- C1: the spec claims a partial update changes only the supplied fields,
that omitted fields retain their prior values, and that the updated item is
returned.  The code violates this on both routes.  On the flat route, a PUT
body supplying only the name makes app/main.py call
crud.update_item(id, name=...) while update_item requires the description
argument too, so the call raises TypeError and the request fails with a 500
instead of updating; on the packaged route, the router passes the whole model
as the single keyword item_data, so even a full update saves the row unchanged
and returns the pre-update item.  Both failures are evaluated here at a store
holding the item (1, Old Name, Old Description). -/
theorem update_partial_leaves_item_and_errors :
    main.update_item_endpoint storeOne 1 ⟨some "New Name", none⟩
        = (HttpResult.pyError "TypeError: update_item missing required positional argument",
            storeOne) ∧
    api_items.update_item_endpoint storeOne 1 (some "New Name") (some "New Description")
        = (HttpResult.ok oldItem, storeOne) := by
  constructor
  · rfl
  · decide

/-- C9: the spec of the packaged update loop says a field supplied as None is
skipped so that the field keeps its prior value while the other supplied
fields are applied.  In fact the emptiness check runs updates[field].strip()
before the loop, and on a None value that attribute access raises
AttributeError: the whole call fails and the non-None description supplied
alongside is not applied either, contradicting the comment in the code itself
(update only fields that are provided, not None). -/
theorem update_none_field_raises_attribute_error :
    crud_item.update_item storeOne 1
        [("name", PyVal.pyNone), ("description", PyVal.pyStr "New Description")]
        = (Except.error (CrudError.attributeError "NoneType object has no attribute strip"),
            storeOne) := by
  rfl

/-- C2 counterexample: the create operation of the flat app performs no
validation at all, so a create request with an empty name is accepted with a
200 response and the item is stored, contradicting the claim that every such
request is rejected with a validation error and nothing is stored. -/
theorem create_empty_name_is_stored_flat :
    main.create_item_endpoint ⟨[], 1⟩ "" "Some description"
        = (HttpResult.ok ⟨1, "", "Some description"⟩,
            ⟨[⟨1, "", "Some description"⟩], 2⟩) := by
  rfl

/-- C4 counterexample: the packaged CRUD layer checks only for emptiness, so
create_item happily persists a 101-character name even though the configured
maximum name length is 100: the persisted-items invariant claimed by the spec
does not include the length bounds, which only the pydantic schemas enforce. -/
theorem create_overlong_name_is_stored :
    (crud_item.create_item ⟨[], 1⟩ longName "Valid description").2.items
        = [⟨1, longName, "Valid description"⟩] ∧
    MAX_NAME_LENGTH < longName.length := by
  constructor
  · rfl
  · decide

/-- Auxiliary: stripping the empty string yields the empty string. -/
theorem pyStrip_empty : pyStrip "" = "" := by
  decide

/-- Auxiliary: in an association list with pairwise-distinct keys, find? for
the key of a member returns exactly that member. -/
theorem find?_key_of_nodup {l : List (String × PyVal)} {p : String × PyVal}
    (hnd : (l.map Prod.fst).Nodup) (hp : p ∈ l) :
    l.find? (fun q => q.1 == p.1) = some p := by
  induction l with
  | nil => cases hp
  | cons a t ih =>
      rw [List.map_cons, List.nodup_cons] at hnd
      rcases List.mem_cons.mp hp with rfl | hmem
      · exact List.find?_cons_of_pos _ (by simp)
      · have hne : (a.1 == p.1) = false := by
          simp only [beq_eq_false_iff_ne, ne_eq]
          intro he
          exact hnd.1 (he ▸ List.mem_map_of_mem Prod.fst hmem)
        simp only [List.find?, hne]
        exact ih hnd.2 hmem

/-- Auxiliary: the update loop keeps name and description non-empty provided
every string it may bind to those columns is non-empty after stripping. -/
theorem applyUpdates_keeps_fields (updates : List (String × PyVal)) :
    ∀ it it2 : Item,
      (∀ p ∈ updates, ∀ v, p.2 = PyVal.pyStr v →
        (p.1 = "name" ∨ p.1 = "description") → pyStrip v ≠ "") →
      it.name ≠ "" → it.description ≠ "" →
      crud_item.applyUpdates it updates = Except.ok it2 →
      it2.name ≠ "" ∧ it2.description ≠ "" := by
  induction updates with
  | nil =>
      intro it it2 _ hn hd hap
      simp only [crud_item.applyUpdates, Except.ok.injEq] at hap
      subst hap
      exact ⟨hn, hd⟩
  | cons a t ih =>
      intro it it2 hup hn hd hap
      obtain ⟨f, v⟩ := a
      have hupt : ∀ p ∈ t, ∀ v, p.2 = PyVal.pyStr v →
          (p.1 = "name" ∨ p.1 = "description") → pyStrip v ≠ "" :=
        fun p hp => hup p (List.mem_cons_of_mem _ hp)
      cases v with
      | pyNone =>
          simp only [crud_item.applyUpdates] at hap
          exact ih it it2 hupt hn hd hap
      | pyStr w =>
          by_cases hf : f = "name"
          · subst hf
            have hs : pyStrip w ≠ "" :=
              hup ("name", PyVal.pyStr w) (List.mem_cons_self _ _) w rfl (Or.inl rfl)
            have hwne : w ≠ "" := fun he => hs (by rw [he]; exact pyStrip_empty)
            have hred : crud_item.applyUpdates it (("name", PyVal.pyStr w) :: t)
                = crud_item.applyUpdates ⟨it.id, w, it.description⟩ t := by
              simp [crud_item.applyUpdates]
            rw [hred] at hap
            exact ih ⟨it.id, w, it.description⟩ it2 hupt hwne hd hap
          · by_cases hf2 : f = "description"
            · subst hf2
              have hs : pyStrip w ≠ "" :=
                hup ("description", PyVal.pyStr w) (List.mem_cons_self _ _) w rfl (Or.inr rfl)
              have hwne : w ≠ "" := fun he => hs (by rw [he]; exact pyStrip_empty)
              have hred : crud_item.applyUpdates it (("description", PyVal.pyStr w) :: t)
                  = crud_item.applyUpdates ⟨it.id, it.name, w⟩ t := by
                simp [crud_item.applyUpdates]
              rw [hred] at hap
              exact ih ⟨it.id, it.name, w⟩ it2 hupt hn hwne hap
            · have hred : crud_item.applyUpdates it ((f, PyVal.pyStr w) :: t)
                  = crud_item.applyUpdates it t := by
                simp [crud_item.applyUpdates, hf, hf2]
              rw [hred] at hap
              exact ih it it2 hupt hn hd hap
      | pyObj =>
          by_cases hf : f = "name" ∨ f = "description"
          · simp [crud_item.applyUpdates, hf] at hap
          · have hred : crud_item.applyUpdates it ((f, PyVal.pyObj) :: t)
                = crud_item.applyUpdates it t := by
              simp [crud_item.applyUpdates, hf]
            rw [hred] at hap
            exact ih it it2 hupt hn hd hap

/-- Auxiliary: the packaged create_item preserves non-emptiness of all
persisted fields. -/
theorem create_preserves_fieldsNonempty (s : Store) (n d : String)
    (hinv : s.fieldsNonempty) :
    ((crud_item.create_item s n d).2).fieldsNonempty := by
  unfold crud_item.create_item
  by_cases hn : n = ""
  · simpa [hn] using hinv
  · by_cases hd : d = ""
    · simpa [hn, hd] using hinv
    · simp only [hn, hd, reduceIte, if_neg, dbCreate, Store.fieldsNonempty]
      intro it hit
      rcases List.mem_append.mp hit with h1 | h2
      · exact hinv it h1
      · have : it = ⟨s.nextId, n, d⟩ := by simpa using h2
        subst this
        exact ⟨hn, hd⟩

/-- Auxiliary: the packaged delete_item preserves non-emptiness of all
persisted fields. -/
theorem delete_preserves_fieldsNonempty (s : Store) (i : Nat)
    (hinv : s.fieldsNonempty) :
    ((crud_item.delete_item s i).2).fieldsNonempty := by
  unfold crud_item.delete_item
  cases hg : dbGetOrNone s i with
  | none => simpa using hinv
  | some it =>
      simp only [dbDelete, Store.fieldsNonempty]
      intro x hx
      exact hinv x (List.mem_filter.mp hx).1

/-- Auxiliary: the packaged update_item preserves non-emptiness of all
persisted fields, for any update dict with distinct keys. -/
theorem update_preserves_fieldsNonempty (s : Store) (i : Nat)
    (updates : List (String × PyVal)) (hnd : (updates.map Prod.fst).Nodup)
    (hinv : s.fieldsNonempty) :
    ((crud_item.update_item s i updates).2).fieldsNonempty := by
  unfold crud_item.update_item
  cases hg : dbGetOrNone s i with
  | none => simpa using hinv
  | some it =>
      dsimp only
      cases hc1 : crud_item.checkEmptyField updates "name" "Name cannot be empty." with
      | some e => simpa using hinv
      | none =>
          dsimp only
          cases hc2 : crud_item.checkEmptyField updates "description" "Description cannot be empty." with
          | some e => simpa using hinv
          | none =>
              dsimp only
              cases ha : crud_item.applyUpdates it updates with
              | error e => simpa using hinv
              | ok it2 =>
                  have hitmem : it ∈ s.items := by
                    unfold dbGetOrNone at hg
                    exact List.mem_of_find?_eq_some hg
                  have hitinv := hinv it hitmem
                  have hup : ∀ p ∈ updates, ∀ v, p.2 = PyVal.pyStr v →
                      (p.1 = "name" ∨ p.1 = "description") → pyStrip v ≠ "" := by
                    intro p hp v hv hfield
                    have hfind := find?_key_of_nodup hnd hp
                    rcases hfield with hfn | hfd
                    · rw [hfn] at hfind
                      have hlook : crud_item.lookupUpd updates "name"
                          = some (PyVal.pyStr v) := by
                        unfold crud_item.lookupUpd
                        rw [hfind]
                        show some p.2 = some (PyVal.pyStr v)
                        rw [hv]
                      unfold crud_item.checkEmptyField at hc1
                      rw [hlook] at hc1
                      by_cases hpv : pyStrip v = ""
                      · simp [hpv] at hc1
                      · exact hpv
                    · rw [hfd] at hfind
                      have hlook : crud_item.lookupUpd updates "description"
                          = some (PyVal.pyStr v) := by
                        unfold crud_item.lookupUpd
                        rw [hfind]
                        show some p.2 = some (PyVal.pyStr v)
                        rw [hv]
                      unfold crud_item.checkEmptyField at hc2
                      rw [hlook] at hc2
                      by_cases hpv : pyStrip v = ""
                      · simp [hpv] at hc2
                      · exact hpv
                  have hfields :=
                    applyUpdates_keeps_fields updates it it2 hup hitinv.1 hitinv.2 ha
                  simp only [dbSave, Store.fieldsNonempty]
                  intro x hx
                  obtain ⟨y, hy, hxy⟩ := List.mem_map.mp hx
                  by_cases hid : y.id = it2.id
                  · rw [if_pos hid] at hxy
                    subst hxy
                    exact hfields
                  · rw [if_neg hid] at hxy
                    subst hxy
                    exact hinv y hy

/-- C4 amended: after every sequence of packaged-CRUD create, update and
delete operations whose update keyword dicts have distinct keys, every
persisted item still has a non-empty name and a non-empty description,
provided every item of the starting store does.  The length-bound half of the
original claim fails (see the counterexample): the bounds are enforced only by
the pydantic schemas, never by the CRUD layer or the store, and the flat
crud.py performs no validation at all. -/
theorem packaged_ops_keep_fields_nonempty (s : Store) (ops : List CrudOp)
    (hops : ∀ op ∈ ops, op.kwargsWF) (hinv : s.fieldsNonempty) :
    (runOps s ops).fieldsNonempty := by
  induction ops generalizing s with
  | nil => exact hinv
  | cons op t ih =>
      have h1 : (runOp s op).fieldsNonempty := by
        cases op with
        | createOp n d => exact create_preserves_fieldsNonempty s n d hinv
        | updateOp i u =>
            exact update_preserves_fieldsNonempty s i u
              (hops _ (List.mem_cons_self _ _)) hinv
        | deleteOp i => exact delete_preserves_fieldsNonempty s i hinv
      exact ih (runOp s op) (fun o ho => hops o (List.mem_cons_of_mem _ ho)) h1

/-- Witness for the amended C4 invariant theorem on a concrete operation
sequence from the empty store. -/
theorem packaged_ops_keep_fields_nonempty_witness :
    (∀ op ∈ sampleOps, op.kwargsWF) ∧ Store.fieldsNonempty ⟨[], 1⟩ ∧
    (runOps ⟨[], 1⟩ sampleOps).fieldsNonempty :=
  ⟨by decide, by decide,
    packaged_ops_keep_fields_nonempty ⟨[], 1⟩ sampleOps (by decide) (by decide)⟩

/-- C2 amended: in the packaged layer, creating with an empty name or an
empty description is rejected and nothing is stored: crud create_item raises
ValueError before touching the database, and the ItemCreate schema fails
validation (a 422 at the router).  The flat layer cited alongside performs no
such validation, as the counterexample shows. -/
theorem create_empty_rejected_packaged (s : Store) (name description : String)
    (h : name = "" ∨ description = "") :
    (∃ msg, crud_item.create_item s name description
        = (Except.error (CrudError.valueError msg), s)) ∧
    (∃ err, ItemCreate.validate name description = Except.error err) := by
  constructor
  · by_cases hn : name = ""
    · exact ⟨"Name cannot be empty.", by simp [crud_item.create_item, hn]⟩
    · have hd : description = "" := h.resolve_left hn
      exact ⟨"Description cannot be empty.", by simp [crud_item.create_item, hn, hd]⟩
  · by_cases hn : name = ""
    · subst hn
      refine ⟨"Name must be at least 1 character(s)", ?_⟩
      have h1 : ItemCreate.validate_name ""
          = Except.error "Name must be at least 1 character(s)" := by decide
      unfold ItemCreate.validate
      rw [h1]
    · have hd : description = "" := h.resolve_left hn
      subst hd
      cases hv : ItemCreate.validate_name name with
      | error e =>
          refine ⟨e, ?_⟩
          unfold ItemCreate.validate
          rw [hv]
      | ok n =>
          refine ⟨"Description must be at least 1 character(s)", ?_⟩
          have h2 : ItemCreate.validate_description ""
              = Except.error "Description must be at least 1 character(s)" := by decide
          unfold ItemCreate.validate
          rw [hv, h2]

/-- Witness for the amended C2 theorem at the empty store with an empty
name. -/
theorem create_empty_rejected_packaged_witness :
    ("" = "" ∨ "desc" = "") ∧
    (∃ msg, crud_item.create_item ⟨[], 1⟩ "" "desc"
        = (Except.error (CrudError.valueError msg), ⟨[], 1⟩)) :=
  ⟨Or.inl rfl, (create_empty_rejected_packaged ⟨[], 1⟩ "" "desc" (Or.inl rfl)).1⟩

/-- C3: on a well-formed store holding at least twenty items, the packaged
get_items with limit 10 and offset 0 followed by limit 10 and offset 10
returns two ten-item pages that concatenate to exactly the first twenty items
(contiguous, no gap) and share no item (disjoint, no overlap). -/
theorem pagination_pages_disjoint_contiguous (s : Store)
    (hlen : 20 ≤ s.items.length) (hwf : s.WF) :
    (crud_item.get_items s 10 0).1 ++ (crud_item.get_items s 10 10).1
        = s.items.take 20 ∧
    (crud_item.get_items s 10 0).1.length = 10 ∧
    (crud_item.get_items s 10 10).1.length = 10 ∧
    ∀ it ∈ (crud_item.get_items s 10 0).1, it ∉ (crud_item.get_items s 10 10).1 := by
  have hpages : s.items.take 10 ++ (s.items.drop 10).take 10 = s.items.take 20 := by
    rw [show (20 : Nat) = 10 + 10 from rfl, List.take_add]
  have hl0 : (s.items.take 10).length = 10 := by
    rw [List.length_take]
    omega
  have hl1 : ((s.items.drop 10).take 10).length = 10 := by
    rw [List.length_take, List.length_drop]
    omega
  have hitems : s.items.Nodup := List.Nodup.of_map _ hwf.2
  have hnd20 : (s.items.take 20).Nodup := (List.take_sublist 20 s.items).nodup hitems
  rw [← hpages] at hnd20
  have hdisj := (List.nodup_append.mp hnd20).2.2
  refine ⟨?_, ?_, ?_, ?_⟩
  · simpa [crud_item.get_items, dbAll] using hpages
  · simpa [crud_item.get_items, dbAll] using hl0
  · simpa [crud_item.get_items, dbAll] using hl1
  · intro it h1 h2
    simp only [crud_item.get_items, dbAll, List.drop_zero] at h1 h2
    exact hdisj h1 h2

/-- Witness for the pagination theorem at a concrete twenty-item store. -/
theorem pagination_pages_disjoint_contiguous_witness :
    20 ≤ store20.items.length ∧ store20.WF ∧
    (crud_item.get_items store20 10 0).1 ++ (crud_item.get_items store20 10 10).1
        = store20.items.take 20 :=
  ⟨by decide, by decide,
    (pagination_pages_disjoint_contiguous store20 (by decide) (by decide)).1⟩

/-- C5: fetching an id that identifies no stored item yields a 404 on both
routes, the data-access layer returns None, and the store is unchanged. -/
theorem fetch_missing_id_returns_404 (s : Store) (id : Nat)
    (h : ∀ it ∈ s.items, it.id ≠ id) :
    main.read_item s id = (HttpResult.httpError 404, s) ∧
    crud.get_item_by_id s id = (none, s) ∧
    api_items.read_item_endpoint s id = (HttpResult.httpError 404, s) := by
  have hfind : dbGetOrNone s id = none := by
    unfold dbGetOrNone
    rw [List.find?_eq_none]
    intro it hit
    simpa using h it hit
  refine ⟨?_, ?_, ?_⟩ <;>
    simp [main.read_item, crud.get_item_by_id, api_items.read_item_endpoint,
      crud_item.get_item_by_id, hfind]

/-- Witness for the missing-id fetch theorem: id 5 is not in the sample
store. -/
theorem fetch_missing_id_returns_404_witness :
    (∀ it ∈ storeOne.items, it.id ≠ 5) ∧
    main.read_item storeOne 5 = (HttpResult.httpError 404, storeOne) :=
  ⟨by decide, (fetch_missing_id_returns_404 storeOne 5 (by decide)).1⟩

/-- C6: when an item with id i is stored, the first delete of i succeeds with
the confirmation message and removes every row with that id, and a second
delete of the same id fails with a 404 while leaving the store as it was;
the data-access layer mirrors this with true then false. -/
theorem delete_succeeds_exactly_once (s : Store) (i : Nat)
    (h : ∃ it ∈ s.items, it.id = i) :
    main.delete_item_endpoint s i
        = (HttpResult.ok "Item deleted successfully", dbDelete s i) ∧
    (∀ it ∈ (dbDelete s i).items, it.id ≠ i) ∧
    main.delete_item_endpoint (dbDelete s i) i
        = (HttpResult.httpError 404, dbDelete s i) ∧
    crud.delete_item s i = (true, dbDelete s i) ∧
    (crud.delete_item (dbDelete s i) i).1 = false := by
  obtain ⟨w, hwmem, hwid⟩ := h
  cases hfind : dbGetOrNone s i with
  | none =>
      exfalso
      unfold dbGetOrNone at hfind
      have := List.find?_eq_none.mp hfind w hwmem
      simp [hwid] at this
  | some it =>
      have hnone : dbGetOrNone (dbDelete s i) i = none := by
        unfold dbGetOrNone dbDelete
        rw [List.find?_eq_none]
        intro x hx
        have hne := (List.mem_filter.mp hx).2
        simpa using hne
      refine ⟨?_, ?_, ?_, ?_, ?_⟩
      · simp [main.delete_item_endpoint, crud.get_item_by_id, crud.delete_item, hfind]
      · intro x hx
        have hne := (List.mem_filter.mp hx).2
        simpa using hne
      · simp [main.delete_item_endpoint, crud.get_item_by_id, hnone]
      · simp [crud.delete_item, hfind]
      · simp [crud.delete_item, hnone]

/-- Witness for the delete-exactly-once theorem at the sample store. -/
theorem delete_succeeds_exactly_once_witness :
    oldItem ∈ storeOne.items ∧ oldItem.id = 1 ∧
    main.delete_item_endpoint storeOne 1
        = (HttpResult.ok "Item deleted successfully", dbDelete storeOne 1) :=
  ⟨by decide, rfl,
    (delete_succeeds_exactly_once storeOne 1 ⟨oldItem, by decide, rfl⟩).1⟩

/-- C7: creating an item with a valid name and description (non-empty, within
the configured bounds) succeeds on both CRUD layers, returning an item that
carries the given fields and the next integer id of the store, which differs from
every currently stored id; well-formedness of the store is preserved. -/
theorem create_valid_returns_fresh_id (s : Store) (name description : String)
    (hwf : s.WF) (hn : name ≠ "") (_hnl : name.length ≤ MAX_NAME_LENGTH)
    (hd : description ≠ "") (_hdl : description.length ≤ MAX_DESCRIPTION_LENGTH) :
    crud.create_item s name description
        = (⟨s.nextId, name, description⟩,
            ⟨s.items ++ [⟨s.nextId, name, description⟩], s.nextId + 1⟩) ∧
    crud_item.create_item s name description
        = (Except.ok ⟨s.nextId, name, description⟩,
            ⟨s.items ++ [⟨s.nextId, name, description⟩], s.nextId + 1⟩) ∧
    (∀ it ∈ s.items, it.id ≠ s.nextId) ∧
    Store.WF ⟨s.items ++ [⟨s.nextId, name, description⟩], s.nextId + 1⟩ := by
  refine ⟨rfl, ?_, ?_, ?_, ?_⟩
  · simp [crud_item.create_item, hn, hd, dbCreate]
  · intro it hit
    exact Nat.ne_of_lt (hwf.1 it hit)
  · intro it hit
    rcases List.mem_append.mp hit with h1 | h2
    · exact Nat.lt_succ_of_lt (hwf.1 it h1)
    · have : it = ⟨s.nextId, name, description⟩ := by simpa using h2
      subst this
      exact Nat.lt_succ_self _
  · rw [List.map_append, List.nodup_append]
    refine ⟨hwf.2, List.nodup_singleton _, ?_⟩
    intro a ha hb
    obtain ⟨it, hit, rfl⟩ := List.mem_map.mp ha
    have hb2 : it.id = s.nextId := by simpa using hb
    exact absurd hb2 (Nat.ne_of_lt (hwf.1 it hit))

/-- Witness for the valid-create theorem at the sample store. -/
theorem create_valid_returns_fresh_id_witness :
    storeOne.WF ∧ ("New" : String) ≠ "" ∧
    crud.create_item storeOne "New" "Thing"
        = (⟨2, "New", "Thing"⟩, ⟨[oldItem, ⟨2, "New", "Thing"⟩], 3⟩) :=
  ⟨by decide, by decide,
    (create_valid_returns_fresh_id storeOne "New" "Thing" (by decide) (by decide)
      (by decide) (by decide) (by decide)).1⟩

/-- C8: whenever the packaged update_item reports ValueError (an empty
supplied name or description after stripping), the store is exactly as it
was: the emptiness checks run before any assignment or save. -/
theorem update_value_error_leaves_store (s : Store) (id : Nat)
    (updates : List (String × PyVal)) (msg : String)
    (h : (crud_item.update_item s id updates).1
        = Except.error (CrudError.valueError msg)) :
    (crud_item.update_item s id updates).2 = s := by
  unfold crud_item.update_item at h ⊢
  cases hg : dbGetOrNone s id with
  | none => simp [hg]
  | some it =>
      cases hc1 : crud_item.checkEmptyField updates "name" "Name cannot be empty." with
      | some e => simp [hg, hc1]
      | none =>
          cases hc2 : crud_item.checkEmptyField updates "description" "Description cannot be empty." with
          | some e => simp [hg, hc1, hc2]
          | none =>
              cases ha : crud_item.applyUpdates it updates with
              | error e => simp [hg, hc1, hc2, ha]
              | ok it2 => simp [hg, hc1, hc2, ha] at h

/-- Witness for the ValueError frame theorem: updating the sample item with a
whitespace-only name raises ValueError and leaves the store unchanged. -/
theorem update_value_error_leaves_store_witness :
    (crud_item.update_item storeOne 1 [("name", PyVal.pyStr " ")]).1
        = Except.error (CrudError.valueError "Name cannot be empty.") ∧
    (crud_item.update_item storeOne 1 [("name", PyVal.pyStr " ")]).2 = storeOne :=
  ⟨by decide,
    update_value_error_leaves_store storeOne 1 [("name", PyVal.pyStr " ")]
      "Name cannot be empty." (by decide)⟩

/-- C10: the read operations of both CRUD layers are single SELECT queries;
in the state-passing embedding each returns the store unchanged, for every
store and every argument, so no read modifies any persisted item. -/
theorem reads_leave_store_unchanged (s : Store) (limit offset id : Nat) :
    (crud.get_items s).2 = s ∧
    (crud.get_item_by_id s id).2 = s ∧
    (crud_item.get_items s limit offset).2 = s ∧
    (crud_item.get_item_by_id s id).2 = s := by
  exact ⟨rfl, rfl, rfl, rfl⟩

end FastapiCrud
